import Mathlib

/-!
# Verification of the mslogin-mc token-exchange chain

Shallow embedding of `src/index.js` (class `MicrosoftAuthProvider`).

The HTTP transport (axios) is modelled as an environment that fixes, for each
of the five network endpoints, the outcome the transport would deliver: either
a fulfilled response (status and parsed body) or a rejection carrying an
optional response and a message.  Times (`Date.now()`) are inputs.  Stage
functions are pure functions from a transport outcome to `Except String` of
the stage result, mirroring the `try`/`catch` structure of the source; the
orchestrating flows additionally record the ordered list of stages whose
network call was issued, and the errors emitted on the `error` event channel.
-/

set_option linter.unusedVariables false

namespace MsLoginMc

/-- A JS error value as seen by a `catch` around an axios call: an optional
HTTP response `(status, data)` (present when the request reached the server
and was rejected, absent for transport failures and for plain `Error`s /
`TypeError`s thrown inside the `try` body) plus a message string. -/
structure AxiosError (δ : Type) where
  response : Option (Nat × δ)
  message : String
deriving DecidableEq

/-- Outcome of an axios request as observed by the calling code: fulfilled
with a status and parsed body, or rejected with an `AxiosError`. -/
inductive AxiosOutcome (σ δ : Type) where
  | ok (status : Nat) (data : σ)
  | err (e : AxiosError δ)
deriving DecidableEq

/-- JS `x || y` for a string-valued field that may be absent: `undefined`
and the empty string are falsy and select the fallback. -/
def jsOr (x : Option String) (y : String) : String :=
  match x with
  | some s => if s = "" then y else s
  | none => y

/-! ## Response body shapes (fields the source reads) -/

/-- Body of a fulfilled Microsoft token response (stage 1). -/
structure MsTokenData where
  access_token : String
  refresh_token : String
  expires_in : Nat
deriving DecidableEq

/-- Error body of the Microsoft token endpoint. -/
structure MsErrData where
  error_description : Option String
deriving DecidableEq

/-- Body of a fulfilled Xbox Live authenticate response (stage 2). -/
structure XblData where
  Token : String
deriving DecidableEq

/-- Generic error body carrying an optional `message` field. -/
structure GenErrData where
  message : Option String
deriving DecidableEq

/-- One entry of the XSTS `DisplayClaims.xui` array. -/
structure XuiClaim where
  uhs : String
deriving DecidableEq

/-- The XSTS `DisplayClaims` object; its `xui` array may be absent. -/
structure DisplayClaimsData where
  xui : Option (List XuiClaim)
deriving DecidableEq

/-- Body of a fulfilled XSTS authorize response (stage 3); the
`DisplayClaims` object may be absent. -/
structure XstsSuccessData where
  Token : String
  DisplayClaims : Option DisplayClaimsData
deriving DecidableEq

/-- Error body of the XSTS endpoint, with the numeric `XErr` code. -/
structure XstsErrData where
  XErr : Option Nat
  message : Option String
deriving DecidableEq

/-- Body of a fulfilled Minecraft login response (stage 4). -/
structure McTokenData where
  access_token : String
  expires_in : Nat
deriving DecidableEq

/-- Body of a fulfilled Minecraft profile response (stage 5); `id` may be
absent.  `skins` and `capes` are opaque to the source, which only copies
them. -/
structure ProfileData where
  id : Option String
  name : String
  skins : List String
  capes : List String
deriving DecidableEq

/-- One entry of the entitlements store `items` array. -/
structure StoreItem where
  name : String
deriving DecidableEq

/-- Body of the entitlements store response; `items` may be absent. -/
structure StoreData where
  items : Option (List StoreItem)
deriving DecidableEq

/-- Stage-3 result: `{ token, userHash }`. -/
structure SecurityTokenData where
  token : String
  userHash : String
deriving DecidableEq

/-! ## Error code strings (`this.ErrorCode` in the source) -/

/-- `ErrorCode.NO_XBOX_ACCOUNT` in the source. -/
def NO_XBOX_ACCOUNT : String := "no_xbox_account"

/-- `ErrorCode.NO_MINECRAFT` in the source. -/
def NO_MINECRAFT : String := "no_minecraft_license"

/-- Message of the TypeError raised by `response.data.DisplayClaims.xui`
when `DisplayClaims` is absent. -/
def typeErrorReadXui : String :=
  "Cannot read properties of undefined (reading xui)"

/-- Message of the TypeError raised by `xui[0]` when `xui` is absent. -/
def typeErrorReadIndex : String :=
  "Cannot read properties of undefined (reading 0)"

/-- Message of the TypeError raised by `xui[0].uhs` when `xui` is empty. -/
def typeErrorReadUhs : String :=
  "Cannot read properties of undefined (reading uhs)"

/-! ## Stage functions (private methods of `MicrosoftAuthProvider`) -/

/-- Stage 1 — `getMicrosoftToken` (src/index.js:144-167).  Issues the form
request for `code` (authorization-code grant, or refresh grant when
`isRefresh`); on success returns the body, on failure wraps the upstream
`error_description` (falling back to the raw error message). -/
def getMicrosoftToken (code : String) (isRefresh : Bool)
    (resp : AxiosOutcome MsTokenData MsErrData) : Except String MsTokenData :=
  match resp with
  | .ok _ data => .ok data
  | .err error =>
      .error ("获取Microsoft令牌失败: " ++
        (match error.response with
         | some (_, d) => jsOr d.error_description error.message
         | none => error.message))

/-- Stage 2 — `getXboxLiveToken` (src/index.js:175-199). -/
def getXboxLiveToken (accessToken : String)
    (resp : AxiosOutcome XblData GenErrData) : Except String XblData :=
  match resp with
  | .ok _ data => .ok data
  | .err error =>
      .error ("获取Xbox Live令牌失败: " ++
        (match error.response with
         | some (_, d) => jsOr d.message error.message
         | none => error.message))

/-- Stage 3 — `getXSTSToken` (src/index.js:207-244).  The `try` body extracts
`response.data.Token` and `response.data.DisplayClaims.xui[0].uhs`; an absent
`DisplayClaims`, an absent `xui`, or an empty `xui` makes that extraction
throw a TypeError, which the same function catches and wraps generically (a
TypeError carries no `response`).  A rejected request with status 401 is
mapped through the `XErr` code table. -/
def getXSTSToken (xblToken : String)
    (resp : AxiosOutcome XstsSuccessData XstsErrData) :
    Except String SecurityTokenData :=
  let tryResult : Except (AxiosError XstsErrData) SecurityTokenData :=
    match resp with
    | .ok _ data =>
        match data.DisplayClaims with
        | none => .error { response := none, message := typeErrorReadXui }
        | some dc =>
            match dc.xui with
            | none => .error { response := none, message := typeErrorReadIndex }
            | some [] => .error { response := none, message := typeErrorReadUhs }
            | some (c :: _) => .ok { token := data.Token, userHash := c.uhs }
    | .err e => .error e
  match tryResult with
  | .ok v => .ok v
  | .error error =>
      let generic : String := "获取XSTS令牌失败: " ++
        (match error.response with
         | some (_, d) => jsOr d.message error.message
         | none => error.message)
      match error.response with
      | some (status, d) =>
          if status = 401 then
            if d.XErr = some 2148916233 then
              .error ("此账户没有Xbox账户，您需要创建一个: " ++ NO_XBOX_ACCOUNT)
            else if d.XErr = some 2148916238 then
              .error "此账户来自不支持Xbox Live的国家/地区"
            else .error generic
          else .error generic
      | none => .error generic

/-- Stage 4 — `getMinecraftToken` (src/index.js:252-270). -/
def getMinecraftToken (xstsData : SecurityTokenData)
    (resp : AxiosOutcome McTokenData GenErrData) : Except String McTokenData :=
  match resp with
  | .ok _ data => .ok data
  | .err error =>
      .error ("获取Minecraft令牌失败: " ++
        (match error.response with
         | some (_, d) => jsOr d.message error.message
         | none => error.message))

/-- Message of the Error constructed inside the `try` body of
`getMinecraftProfile` when the body or its `id` field is falsy. -/
def noProfileMsg : String :=
  "没有找到Minecraft资料，可能没有购买游戏: " ++ NO_MINECRAFT

/-- Stage 5 — `getMinecraftProfile` (src/index.js:278-302).  A fulfilled
response whose body is falsy, or whose `id` field is falsy (absent or the
empty string), makes the `try` body throw a plain Error; that Error is caught
by the catch handler of the same function, which — the Error carrying no `response`, so
the 404 test fails — re-throws it wrapped in the generic profile-fetch-failed
message.  A rejected request with status 404 maps to the no-purchase
message. -/
def getMinecraftProfile (accessToken : String)
    (resp : AxiosOutcome (Option ProfileData) GenErrData) :
    Except String ProfileData :=
  let tryResult : Except (AxiosError GenErrData) ProfileData :=
    match resp with
    | .ok _ data =>
        match data with
        | none => .error { response := none, message := noProfileMsg }
        | some p =>
            match p.id with
            | none => .error { response := none, message := noProfileMsg }
            | some s =>
                if s = "" then .error { response := none, message := noProfileMsg }
                else .ok p
    | .err e => .error e
  match tryResult with
  | .ok p => .ok p
  | .error error =>
      match error.response with
      | some (404, _) => .error ("此账户没有购买Minecraft: " ++ NO_MINECRAFT)
      | some (_, d) => .error ("获取Minecraft资料失败: " ++ jsOr d.message error.message)
      | none => .error ("获取Minecraft资料失败: " ++ error.message)

/-! ## Auxiliary operations -/

/-- `validateMinecraftToken` (src/index.js:309-320): on a fulfilled response
returns `response.status === 200`; any caught error yields `false`.  Total —
never throws. -/
def validateMinecraftToken (accessToken : String)
    (resp : AxiosOutcome (Option StoreData) GenErrData) : Bool :=
  match resp with
  | .ok status _ => status == 200
  | .err _ => false

/-- `checkGameOwnership` (src/index.js:327-343): on a fulfilled response
evaluates `response.data && response.data.items && items.some(name ===
"game_minecraft")` (falsy data or items short-circuit the chain); any caught
error yields `false`.  Total — never throws. -/
def checkGameOwnership (accessToken : String)
    (resp : AxiosOutcome (Option StoreData) GenErrData) : Bool :=
  match resp with
  | .ok _ data =>
      match data with
      | none => false
      | some d =>
          match d.items with
          | none => false
          | some items => items.any (fun item => item.name == "game_minecraft")
  | .err _ => false

/-! ## Provider construction and the authorization URL -/

/-- The options object passed to the constructor; both fields optional. -/
structure ProviderOptions where
  clientId : Option String
  redirectUri : Option String
deriving DecidableEq

/-- The immutable configuration a constructed provider holds. -/
structure MicrosoftAuthProvider where
  clientId : String
  redirectUri : String
deriving DecidableEq

/-- Default redirect URI used when `options.redirectUri` is falsy. -/
def defaultRedirectUri : String :=
  "https://login.microsoftonline.com/common/oauth2/nativeclient"

/-- The `MicrosoftAuthProvider` constructor (src/index.js:18-38): throws when
the options object is absent or `options.clientId` is falsy (absent or empty);
otherwise stores `clientId` and `redirectUri` (defaulted when falsy).  Pure —
it performs no network call (it consumes no transport outcome). -/
def mkMicrosoftAuthProvider (options : Option ProviderOptions) :
    Except String MicrosoftAuthProvider :=
  match options with
  | none => .error "必须提供clientId参数"
  | some opts =>
      match opts.clientId with
      | none => .error "必须提供clientId参数"
      | some cid =>
          if cid = "" then .error "必须提供clientId参数"
          else .ok { clientId := cid
                     redirectUri := jsOr opts.redirectUri defaultRedirectUri }

/-- `true` for the characters `encodeURIComponent` leaves unescaped:
ASCII letters, digits, and `- _ . ! ~ * ( )` and the apostrophe. -/
def isUnreservedURIChar (c : Char) : Bool :=
  (c ≥ 'A' && c ≤ 'Z') || (c ≥ 'a' && c ≤ 'z') || (c ≥ '0' && c ≤ '9') ||
  c == '-' || c == '_' || c == '.' || c == '!' || c == '~' || c == '*' ||
  c == Char.ofNat 39 || c == '(' || c == ')'

/-- Upper-case hexadecimal digit for `n < 16`. -/
def hexDigit (n : Nat) : Char :=
  if n < 10 then Char.ofNat (48 + n) else Char.ofNat (55 + n)

/-- `%XX` percent-escape of one byte. -/
def percentEncodeByte (b : UInt8) : String :=
  String.mk ['%', hexDigit (b.toNat / 16), hexDigit (b.toNat % 16)]

/-- JS `encodeURIComponent`: unreserved characters pass through, every other
character is replaced by the percent-escapes of its UTF-8 bytes. -/
def encodeURIComponent (s : String) : String :=
  String.join (s.data.map fun c =>
    if isUnreservedURIChar c then String.singleton c
    else String.join (((String.singleton c).toUTF8.toList.map percentEncodeByte)))

/-- The fixed OAuth scope string of the source. -/
def scopes : String := "XboxLive.signin offline_access"

/-- `getAuthorizationUrl` (src/index.js:44-47): a pure template-string
computation over the stored configuration — no I/O, no failure mode. -/
def getAuthorizationUrl (p : MicrosoftAuthProvider) : String :=
  "https://login.microsoftonline.com/consumers/oauth2/v2.0/authorize?prompt=select_account&client_id="
    ++ p.clientId ++ "&response_type=code&scope=" ++ encodeURIComponent scopes
    ++ "&redirect_uri=" ++ encodeURIComponent p.redirectUri

/-! ## Orchestration -/

/-- Tags for the five network calls, in pipeline order. -/
inductive Stage where
  | msToken
  | xblToken
  | xstsToken
  | mcToken
  | mcProfile
deriving DecidableEq

/-- The transport environment of one orchestrated invocation: the outcome
each endpoint would deliver if called, and the values `Date.now()` returns at
the two points the result object evaluates it (`now1` for the Microsoft
expiry, `now2` for the Minecraft expiry). -/
structure Env where
  msToken : AxiosOutcome MsTokenData MsErrData
  xblToken : AxiosOutcome XblData GenErrData
  xstsToken : AxiosOutcome XstsSuccessData XstsErrData
  mcToken : AxiosOutcome McTokenData GenErrData
  mcProfile : AxiosOutcome (Option ProfileData) GenErrData
  now1 : Nat
  now2 : Nat

/-- The `microsoft` part of a login/refresh result. -/
structure MicrosoftTokens where
  access_token : String
  refresh_token : String
  expires_at : Nat
deriving DecidableEq

/-- The `minecraft` part of a login/refresh result. -/
structure MinecraftTokens where
  access_token : String
  expires_at : Nat
deriving DecidableEq

/-- The `profile` part of a login result (copied from the stage-5 body). -/
structure ProfileView where
  id : Option String
  name : String
  skins : List String
  capes : List String
deriving DecidableEq

/-- The denormalized `user` convenience view of a login result. -/
structure UserView where
  username : String
  uuid : Option String
  type : String
deriving DecidableEq

/-- The object `completeLogin` resolves with. -/
structure LoginResult where
  microsoft : MicrosoftTokens
  minecraft : MinecraftTokens
  profile : ProfileView
  user : UserView
deriving DecidableEq

/-- The object `refreshTokens` resolves with. -/
structure RefreshResult where
  microsoft : MicrosoftTokens
  minecraft : MinecraftTokens
deriving DecidableEq

/-- Observable outcome of one orchestrated call: the resolved value or raised
error, the payloads emitted on the `error` event channel, and the ordered
list of stages whose network call was issued. -/
structure RunResult (α : Type) where
  result : Except String α
  emitted : List String
  calls : List Stage

/-- The `catch` block shared verbatim by `completeLogin` (src/index.js:94-97)
and `refreshTokens` (src/index.js:131-134): a value resolves with nothing
emitted; a raised error is emitted once on the `error` channel and
re-thrown. -/
def emitAndRethrow {α : Type} (inner : Except String α × List Stage) :
    RunResult α :=
  match inner with
  | (.ok v, calls) => { result := .ok v, emitted := [], calls := calls }
  | (.error e, calls) => { result := .error e, emitted := [e], calls := calls }

/-- `completeLogin` (src/index.js:54-98): stages 1→2→3→4→5 sequentially,
short-circuiting on the first failure; on success builds the result object
(computing `Date.now() + expires_in * 1000` for each expiry); the `catch`
emits the caught error on the `error` channel and re-throws it. -/
def completeLogin (authCode : String) (env : Env) : RunResult LoginResult :=
  let inner : Except String LoginResult × List Stage :=
    match getMicrosoftToken authCode false env.msToken with
    | .error e => (.error e, [Stage.msToken])
    | .ok msTokenData =>
      match getXboxLiveToken msTokenData.access_token env.xblToken with
      | .error e => (.error e, [Stage.msToken, Stage.xblToken])
      | .ok xblTokenData =>
        match getXSTSToken xblTokenData.Token env.xstsToken with
        | .error e => (.error e, [Stage.msToken, Stage.xblToken, Stage.xstsToken])
        | .ok xstsTokenData =>
          match getMinecraftToken xstsTokenData env.mcToken with
          | .error e =>
              (.error e,
               [Stage.msToken, Stage.xblToken, Stage.xstsToken, Stage.mcToken])
          | .ok mcTokenData =>
            match getMinecraftProfile mcTokenData.access_token env.mcProfile with
            | .error e =>
                (.error e,
                 [Stage.msToken, Stage.xblToken, Stage.xstsToken, Stage.mcToken,
                  Stage.mcProfile])
            | .ok mcProfileData =>
                (.ok
                  { microsoft :=
                      { access_token := msTokenData.access_token
                        refresh_token := msTokenData.refresh_token
                        expires_at := env.now1 + msTokenData.expires_in * 1000 }
                    minecraft :=
                      { access_token := mcTokenData.access_token
                        expires_at := env.now2 + mcTokenData.expires_in * 1000 }
                    profile :=
                      { id := mcProfileData.id
                        name := mcProfileData.name
                        skins := mcProfileData.skins
                        capes := mcProfileData.capes }
                    user :=
                      { username := mcProfileData.name
                        uuid := mcProfileData.id
                        type := "microsoft" } },
                 [Stage.msToken, Stage.xblToken, Stage.xstsToken, Stage.mcToken,
                  Stage.mcProfile])
  emitAndRethrow inner

/-- `refreshTokens` (src/index.js:105-135): stages 1 (refresh grant)
→2→3→4 only — the profile fetch is absent from its body; same
short-circuit and emit-then-rethrow discipline as `completeLogin`. -/
def refreshTokens (refreshToken : String) (env : Env) : RunResult RefreshResult :=
  let inner : Except String RefreshResult × List Stage :=
    match getMicrosoftToken refreshToken true env.msToken with
    | .error e => (.error e, [Stage.msToken])
    | .ok msTokenData =>
      match getXboxLiveToken msTokenData.access_token env.xblToken with
      | .error e => (.error e, [Stage.msToken, Stage.xblToken])
      | .ok xblTokenData =>
        match getXSTSToken xblTokenData.Token env.xstsToken with
        | .error e => (.error e, [Stage.msToken, Stage.xblToken, Stage.xstsToken])
        | .ok xstsTokenData =>
          match getMinecraftToken xstsTokenData env.mcToken with
          | .error e =>
              (.error e,
               [Stage.msToken, Stage.xblToken, Stage.xstsToken, Stage.mcToken])
          | .ok mcTokenData =>
              (.ok
                { microsoft :=
                    { access_token := msTokenData.access_token
                      refresh_token := msTokenData.refresh_token
                      expires_at := env.now1 + msTokenData.expires_in * 1000 }
                  minecraft :=
                    { access_token := mcTokenData.access_token
                      expires_at := env.now2 + mcTokenData.expires_in * 1000 } },
               [Stage.msToken, Stage.xblToken, Stage.xstsToken, Stage.mcToken])
  emitAndRethrow inner

/-! ## Concrete data for witnesses -/

/-- A concrete successful stage-1 body. -/
def msOkData : MsTokenData :=
  { access_token := "msA", refresh_token := "msR", expires_in := 3600 }

/-- A concrete successful stage-2 body. -/
def xblOkData : XblData := { Token := "xblT" }

/-- A concrete successful stage-3 body with one claim entry. -/
def xstsOkData : XstsSuccessData :=
  { Token := "xstsT", DisplayClaims := some { xui := some [{ uhs := "hash1" }] } }

/-- A concrete successful stage-4 body. -/
def mcOkData : McTokenData := { access_token := "mcA", expires_in := 86400 }

/-- A concrete successful stage-5 body. -/
def profileOkData : ProfileData :=
  { id := some "uuid1", name := "Steve", skins := ["skinA"], capes := [] }

/-- An environment in which all five endpoints respond successfully. -/
def envAllOk : Env :=
  { msToken := .ok 200 msOkData
    xblToken := .ok 200 xblOkData
    xstsToken := .ok 200 xstsOkData
    mcToken := .ok 200 mcOkData
    mcProfile := .ok 200 (some profileOkData)
    now1 := 1700000000000
    now2 := 1700000000007 }

/-- An environment whose stage-3 endpoint rejects with 401 / XErr
2148916233 (no Xbox account). -/
def envNoXbox : Env :=
  { envAllOk with
    xstsToken := .err
      { response := some (401, { XErr := some 2148916233, message := none })
        message := "Request failed with status code 401" } }

/-- An environment whose stage-5 endpoint responds 200 with a body lacking
`id`. -/
def envNoId : Env :=
  { envAllOk with
    mcProfile := .ok 200 (some { id := none, name := "", skins := [], capes := [] }) }

/-- An environment whose stage-5 endpoint rejects with 404. -/
def envProfile404 : Env :=
  { envAllOk with
    mcProfile := .err
      { response := some (404, { message := some "NOT_FOUND" })
        message := "Request failed with status code 404" } }

/-- An environment whose stage-1 endpoint rejects without a response. -/
def envMsFail : Env :=
  { envAllOk with
    msToken := .err { response := none, message := "socket hang up" } }

/-! ## Theorems for the claims -/

theorem string_append_assoc (a b c : String) : a ++ b ++ c = a ++ (b ++ c) := by
  cases a with | mk la =>
  cases b with | mk lb =>
  cases c with | mk lc =>
  show String.mk ((la ++ lb) ++ lc) = String.mk (la ++ (lb ++ lc))
  rw [List.append_assoc]

/-- C1: if all five stage calls succeed (stage 3 with a nonempty claims
array, stage 5 with a non-falsy id), `completeLogin` resolves with a
`LoginResult` whose `profile.id`/`profile.name` are the `id`/`name` of the
stage-5 body, and whose expiry timestamps are exactly `Date.now()` at the
moment of computation plus `expires_in * 1000`. -/
theorem c1_completeLogin_success (authCode : String) (env : Env)
    (st1 st2 st3 st4 st5 : Nat)
    (ms : MsTokenData) (xbl : XblData) (xsts : XstsSuccessData)
    (dc : DisplayClaimsData) (c : XuiClaim) (cs : List XuiClaim)
    (mc : McTokenData) (p : ProfileData) (pid : String)
    (h1 : env.msToken = .ok st1 ms)
    (h2 : env.xblToken = .ok st2 xbl)
    (h3 : env.xstsToken = .ok st3 xsts)
    (hdc : xsts.DisplayClaims = some dc)
    (hxui : dc.xui = some (c :: cs))
    (h4 : env.mcToken = .ok st4 mc)
    (h5 : env.mcProfile = .ok st5 (some p))
    (hid : p.id = some pid) (hpid : pid ≠ "") :
    ∃ r, (completeLogin authCode env).result = .ok r ∧
      r.profile.id = p.id ∧ r.profile.name = p.name ∧
      r.microsoft.expires_at = env.now1 + ms.expires_in * 1000 ∧
      r.minecraft.expires_at = env.now2 + mc.expires_in * 1000 := by
  simp [completeLogin, emitAndRethrow, getMicrosoftToken, getXboxLiveToken,
    getXSTSToken, getMinecraftToken, getMinecraftProfile, h1, h2, h3, h4, h5,
    hdc, hxui, hid, hpid]

/-- Witness for C1 at a concrete all-success environment. -/
theorem c1_witness :
    ∃ r, (completeLogin "authCode" envAllOk).result = .ok r ∧
      r.profile.id = profileOkData.id ∧ r.profile.name = profileOkData.name ∧
      r.microsoft.expires_at = envAllOk.now1 + msOkData.expires_in * 1000 ∧
      r.minecraft.expires_at = envAllOk.now2 + mcOkData.expires_in * 1000 :=
  c1_completeLogin_success "authCode" envAllOk 200 200 200 200 200
    msOkData xblOkData xstsOkData { xui := some [{ uhs := "hash1" }] }
    { uhs := "hash1" } [] mcOkData profileOkData "uuid1"
    rfl rfl rfl rfl rfl rfl rfl rfl (by decide)

/-- C2: if stages 1 and 2 succeed and the stage-3 call rejects with HTTP 401
carrying `XErr = 2148916233`, `completeLogin` rejects with the distinct
no-Xbox-account error (its message ends in the `no_xbox_account` code), and
neither stage 4 nor stage 5 is ever invoked. -/
theorem c2_noXboxAccount (authCode : String) (env : Env)
    (st1 st2 : Nat) (ms : MsTokenData) (xbl : XblData)
    (e : AxiosError XstsErrData) (d : XstsErrData)
    (h1 : env.msToken = .ok st1 ms)
    (h2 : env.xblToken = .ok st2 xbl)
    (h3 : env.xstsToken = .err e)
    (hresp : e.response = some (401, d))
    (hxerr : d.XErr = some 2148916233) :
    (completeLogin authCode env).result =
      .error ("此账户没有Xbox账户，您需要创建一个: " ++ NO_XBOX_ACCOUNT) ∧
    (completeLogin authCode env).calls =
      [Stage.msToken, Stage.xblToken, Stage.xstsToken] ∧
    Stage.mcToken ∉ (completeLogin authCode env).calls ∧
    Stage.mcProfile ∉ (completeLogin authCode env).calls := by
  have hcl :
      completeLogin authCode env =
        { result := .error ("此账户没有Xbox账户，您需要创建一个: " ++ NO_XBOX_ACCOUNT)
          emitted := ["此账户没有Xbox账户，您需要创建一个: " ++ NO_XBOX_ACCOUNT]
          calls := [Stage.msToken, Stage.xblToken, Stage.xstsToken] } := by
    simp [completeLogin, emitAndRethrow, getMicrosoftToken, getXboxLiveToken,
      getXSTSToken, h1, h2, h3, hresp, hxerr]
  refine ⟨by rw [hcl], by rw [hcl], ?_, ?_⟩ <;> rw [hcl] <;> decide

/-- Witness for C2 at a concrete environment whose stage-3 endpoint rejects
with 401/2148916233. -/
theorem c2_witness :
    (completeLogin "authCode" envNoXbox).result =
      .error ("此账户没有Xbox账户，您需要创建一个: " ++ NO_XBOX_ACCOUNT) ∧
    (completeLogin "authCode" envNoXbox).calls =
      [Stage.msToken, Stage.xblToken, Stage.xstsToken] ∧
    Stage.mcToken ∉ (completeLogin "authCode" envNoXbox).calls ∧
    Stage.mcProfile ∉ (completeLogin "authCode" envNoXbox).calls :=
  c2_noXboxAccount "authCode" envNoXbox 200 200 msOkData xblOkData
    { response := some (401, { XErr := some 2148916233, message := none })
      message := "Request failed with status code 401" }
    { XErr := some 2148916233, message := none }
    rfl rfl rfl rfl rfl

/-- C3: if stages 1–4 succeed and the stage-5 response either is fulfilled
with a body lacking `id` or is rejected with HTTP 404, `completeLogin`
rejects with an error of the no-license kind: its message ends in the
`no_minecraft_license` code. -/
theorem c3_noLicense (authCode : String) (env : Env)
    (st1 st2 st3 st4 : Nat) (ms : MsTokenData) (xbl : XblData)
    (xsts : XstsSuccessData) (dc : DisplayClaimsData) (c : XuiClaim)
    (cs : List XuiClaim) (mc : McTokenData)
    (h1 : env.msToken = .ok st1 ms)
    (h2 : env.xblToken = .ok st2 xbl)
    (h3 : env.xstsToken = .ok st3 xsts)
    (hdc : xsts.DisplayClaims = some dc)
    (hxui : dc.xui = some (c :: cs))
    (h4 : env.mcToken = .ok st4 mc)
    (h5 : (∃ st5 p, env.mcProfile = .ok st5 (some p) ∧ p.id = none) ∨
          (∃ e d, env.mcProfile = .err e ∧ e.response = some (404, d))) :
    ∃ m, (completeLogin authCode env).result = .error m ∧
      ∃ pre, m = pre ++ NO_MINECRAFT := by
  rcases h5 with ⟨st5, p, h5, hid⟩ | ⟨e, d, h5, hresp⟩
  · refine ⟨"获取Minecraft资料失败: " ++ noProfileMsg, ?_,
      "获取Minecraft资料失败: " ++ "没有找到Minecraft资料，可能没有购买游戏: ", ?_⟩
    · simp [completeLogin, emitAndRethrow, getMicrosoftToken, getXboxLiveToken,
        getXSTSToken, getMinecraftToken, getMinecraftProfile, h1, h2, h3, h4,
        h5, hdc, hxui, hid]
    · rw [noProfileMsg, string_append_assoc]
  · refine ⟨"此账户没有购买Minecraft: " ++ NO_MINECRAFT, ?_,
      "此账户没有购买Minecraft: ", rfl⟩
    simp [completeLogin, emitAndRethrow, getMicrosoftToken, getXboxLiveToken,
      getXSTSToken, getMinecraftToken, getMinecraftProfile, h1, h2, h3, h4, h5,
      hdc, hxui, hresp]

/-- Witness for C3 at a concrete environment whose stage-5 response is 200
with a body lacking `id`. -/
theorem c3_witness :
    ∃ m, (completeLogin "authCode" envNoId).result = .error m ∧
      ∃ pre, m = pre ++ NO_MINECRAFT :=
  c3_noLicense "authCode" envNoId 200 200 200 200
    msOkData xblOkData xstsOkData { xui := some [{ uhs := "hash1" }] }
    { uhs := "hash1" } [] mcOkData
    rfl rfl rfl rfl rfl rfl
    (Or.inl ⟨200, { id := none, name := "", skins := [], capes := [] }, rfl, rfl⟩)

/-- C4: `refreshTokens` never issues the stage-5 profile fetch, whatever the
transport outcomes of the four stages it does run. -/
theorem c4_refresh_never_fetches_profile (refreshToken : String) (env : Env) :
    Stage.mcProfile ∉ (refreshTokens refreshToken env).calls := by
  cases h1 : getMicrosoftToken refreshToken true env.msToken with
  | error e => simp [refreshTokens, emitAndRethrow, h1]
  | ok msTokenData =>
    cases h2 : getXboxLiveToken msTokenData.access_token env.xblToken with
    | error e => simp [refreshTokens, emitAndRethrow, h1, h2]
    | ok xblTokenData =>
      cases h3 : getXSTSToken xblTokenData.Token env.xstsToken with
      | error e => simp [refreshTokens, emitAndRethrow, h1, h2, h3]
      | ok xstsTokenData =>
        cases h4 : getMinecraftToken xstsTokenData env.mcToken with
        | error e => simp [refreshTokens, emitAndRethrow, h1, h2, h3, h4]
        | ok mcTokenData => simp [refreshTokens, emitAndRethrow, h1, h2, h3, h4]

/-- C5: every rejection of `completeLogin` or `refreshTokens` is emitted
exactly once on the `error` channel with the identical payload, and a
resolved call emits nothing. -/
theorem c5_reject_iff_emitted (authCode refreshToken : String) (env env2 : Env) :
    (∀ e, (completeLogin authCode env).result = .error e →
        (completeLogin authCode env).emitted = [e]) ∧
    (∀ r, (completeLogin authCode env).result = .ok r →
        (completeLogin authCode env).emitted = []) ∧
    (∀ e, (refreshTokens refreshToken env2).result = .error e →
        (refreshTokens refreshToken env2).emitted = [e]) ∧
    (∀ r, (refreshTokens refreshToken env2).result = .ok r →
        (refreshTokens refreshToken env2).emitted = []) := by
  have key : ∀ (α : Type) (p : Except String α × List Stage),
      (∀ e, (emitAndRethrow p).result = .error e →
          (emitAndRethrow p).emitted = [e]) ∧
      (∀ r, (emitAndRethrow p).result = .ok r →
          (emitAndRethrow p).emitted = []) := by
    intro α p
    rcases p with ⟨res, calls⟩
    cases res <;> simp [emitAndRethrow]
  exact ⟨(key _ _).1, (key _ _).2, (key _ _).1, (key _ _).2⟩

/-- Witness for C5 at a concrete environment whose stage-1 request fails. -/
theorem c5_witness :
    (completeLogin "authCode" envMsFail).emitted =
      ["获取Microsoft令牌失败: socket hang up"] :=
  (c5_reject_iff_emitted "authCode" "r" envMsFail envMsFail).1
    "获取Microsoft令牌失败: socket hang up" rfl

/-- C6: `validateMinecraftToken` and `checkGameOwnership` are total Boolean
functions of the transport outcome — they never throw — and return `false`
whenever the transport rejects (which covers every non-2xx response, since
the transport rejects those), and `checkGameOwnership` also returns `false`
on a fulfilled response whose body or `items` field is absent; a fulfilled
response with a status other than 200 makes `validateMinecraftToken` return
`false` as well. -/
theorem c6_aux_checks_never_throw (accessToken : String)
    (e : AxiosError GenErrData) (status : Nat) (d : Option StoreData) :
    validateMinecraftToken accessToken (.err e) = false ∧
    checkGameOwnership accessToken (.err e) = false ∧
    (status ≠ 200 → validateMinecraftToken accessToken (.ok status d) = false) ∧
    checkGameOwnership accessToken (.ok status none) = false ∧
    checkGameOwnership accessToken (.ok status (some { items := none })) = false := by
  refine ⟨rfl, rfl, ?_, rfl, rfl⟩
  intro h
  simpa [validateMinecraftToken] using h

/-- Witness for C6 at a concrete transport failure and a concrete fulfilled
204 response. -/
theorem c6_witness :
    validateMinecraftToken "tok" (.err { response := none, message := "x" }) = false ∧
    checkGameOwnership "tok" (.err { response := none, message := "x" }) = false ∧
    (204 ≠ 200 → validateMinecraftToken "tok" (.ok 204 none) = false) ∧
    checkGameOwnership "tok" (.ok 204 none) = false ∧
    checkGameOwnership "tok" (.ok 204 (some { items := none })) = false :=
  c6_aux_checks_never_throw "tok" { response := none, message := "x" } 204 none

/-- C7: construction fails (before any network access — the constructor
consumes no transport outcome) exactly when the options object is absent or
its `clientId` is absent or empty; with a non-empty `clientId` it
succeeds. -/
theorem c7_constructor_requires_clientId (opts : ProviderOptions) (cid : String) :
    mkMicrosoftAuthProvider none = .error "必须提供clientId参数" ∧
    (∀ o : ProviderOptions, o.clientId = none →
      mkMicrosoftAuthProvider (some o) = .error "必须提供clientId参数") ∧
    (∀ o : ProviderOptions, o.clientId = some "" →
      mkMicrosoftAuthProvider (some o) = .error "必须提供clientId参数") ∧
    (opts.clientId = some cid → cid ≠ "" →
      ∃ p, mkMicrosoftAuthProvider (some opts) = .ok p ∧ p.clientId = cid) := by
  refine ⟨rfl, ?_, ?_, ?_⟩
  · intro o ho
    simp [mkMicrosoftAuthProvider, ho]
  · intro o ho
    simp [mkMicrosoftAuthProvider, ho]
  · intro hcid hne
    simp [mkMicrosoftAuthProvider, hcid, hne]

/-- Witness for C7 at concrete options objects. -/
theorem c7_witness :
    mkMicrosoftAuthProvider none = .error "必须提供clientId参数" ∧
    mkMicrosoftAuthProvider
      (some { clientId := none, redirectUri := none }) =
        .error "必须提供clientId参数" ∧
    mkMicrosoftAuthProvider
      (some { clientId := some "", redirectUri := none }) =
        .error "必须提供clientId参数" ∧
    ∃ p, mkMicrosoftAuthProvider
      (some { clientId := some "azure-client", redirectUri := none }) = .ok p ∧
      p.clientId = "azure-client" :=
  have h := c7_constructor_requires_clientId
    { clientId := some "azure-client", redirectUri := none } "azure-client"
  ⟨h.1, h.2.1 { clientId := none, redirectUri := none } rfl,
   h.2.2.1 { clientId := some "", redirectUri := none } rfl,
   h.2.2.2 rfl (by decide)⟩

/-- C8: `getAuthorizationUrl` — a pure, total computation over the stored
configuration, with no transport parameter and no failure mode — yields a
string containing the configured `clientId` and, later, the URL-encoded
`redirectUri`. -/
theorem c8_authorization_url (p : MicrosoftAuthProvider) :
    ∃ a b, getAuthorizationUrl p =
      a ++ p.clientId ++ b ++ encodeURIComponent p.redirectUri := by
  refine ⟨"https://login.microsoftonline.com/consumers/oauth2/v2.0/authorize?prompt=select_account&client_id=",
    "&response_type=code&scope=" ++ encodeURIComponent scopes ++ "&redirect_uri=",
    ?_⟩
  simp only [getAuthorizationUrl, string_append_assoc]

/-- C9: on a fulfilled stage-3 response, `getXSTSToken` fails whenever the
`DisplayClaims.xui` claims array is absent or empty, and returns a
token/user-hash pair — the hash taken from the `uhs` of the first entry — exactly
when the array has at least one entry. -/
theorem c9_xsts_requires_claim (xblToken : String) (st : Nat)
    (data : XstsSuccessData) :
    ((data.DisplayClaims = none ∨
        ∃ dc, data.DisplayClaims = some dc ∧ (dc.xui = none ∨ dc.xui = some [])) →
      ∃ m, getXSTSToken xblToken (.ok st data) = .error m) ∧
    (∀ dc c cs, data.DisplayClaims = some dc → dc.xui = some (c :: cs) →
      getXSTSToken xblToken (.ok st data) =
        .ok { token := data.Token, userHash := c.uhs }) := by
  constructor
  · rintro (hdc | ⟨dc, hdc, hxui | hxui⟩)
    · exact ⟨"获取XSTS令牌失败: " ++ typeErrorReadXui, by simp [getXSTSToken, hdc]⟩
    · exact ⟨"获取XSTS令牌失败: " ++ typeErrorReadIndex,
        by simp [getXSTSToken, hdc, hxui]⟩
    · exact ⟨"获取XSTS令牌失败: " ++ typeErrorReadUhs,
        by simp [getXSTSToken, hdc, hxui]⟩
  · intro dc c cs hdc hxui
    simp [getXSTSToken, hdc, hxui]

/-- Witness for C9 at a concrete empty claims array and a concrete singleton
claims array. -/
theorem c9_witness :
    (∃ m, getXSTSToken "xblT"
      (.ok 200 { Token := "t", DisplayClaims := some { xui := some [] } }) =
        .error m) ∧
    getXSTSToken "xblT" (.ok 200 xstsOkData) =
      .ok { token := xstsOkData.Token, userHash := "hash1" } :=
  ⟨(c9_xsts_requires_claim "xblT" 200
      { Token := "t", DisplayClaims := some { xui := some [] } }).1
      (Or.inr ⟨{ xui := some [] }, rfl, Or.inr rfl⟩),
   (c9_xsts_requires_claim "xblT" 200 xstsOkData).2
      { xui := some [{ uhs := "hash1" }] } { uhs := "hash1" } [] rfl rfl⟩

/-- C10: on a fulfilled stage-5 response whose body lacks `id`, the
`NO_MINECRAFT` error thrown inside the `try` body of `getMinecraftProfile`
is caught by the catch handler of that same function and re-thrown wrapped in the generic
profile-fetch-failed message: the caller observes the wrapper with the
original missing-profile message (including the `no_minecraft_license` code
string) embedded inside it, which differs from the message of the originally
constructed error. -/
theorem c10_missing_id_is_wrapped (accessToken : String) (st : Nat)
    (p : ProfileData) (hid : p.id = none) :
    getMinecraftProfile accessToken (.ok st (some p)) =
      .error ("获取Minecraft资料失败: " ++ noProfileMsg) ∧
    (∃ a b, "获取Minecraft资料失败: " ++ noProfileMsg =
        a ++ NO_MINECRAFT ++ b) ∧
    "获取Minecraft资料失败: " ++ noProfileMsg ≠ noProfileMsg := by
  refine ⟨?_, ?_, by decide⟩
  · simp [getMinecraftProfile, hid]
  · refine ⟨"获取Minecraft资料失败: " ++ "没有找到Minecraft资料，可能没有购买游戏: ", "", ?_⟩
    rw [noProfileMsg, string_append_assoc]
    rfl

/-- Witness for C10 at a concrete body lacking `id`. -/
theorem c10_witness :
    getMinecraftProfile "mcA"
      (.ok 200 (some { id := none, name := "", skins := [], capes := [] })) =
        .error ("获取Minecraft资料失败: " ++ noProfileMsg) ∧
    (∃ a b, "获取Minecraft资料失败: " ++ noProfileMsg =
        a ++ NO_MINECRAFT ++ b) ∧
    "获取Minecraft资料失败: " ++ noProfileMsg ≠ noProfileMsg :=
  c10_missing_id_is_wrapped "mcA" 200
    { id := none, name := "", skins := [], capes := [] } rfl

end MsLoginMc
